import Mathlib

/-!
Shallow embedding of the OTP-based credential-verification and
session-issuance workflow of the next-auth repository.

Routes modelled (from the TypeScript source):
  * verification route          (src: verification [email]/[type]/route, POST)
  * delete-account route        (src: DELETE handler in the same family)
  * resend-OTP route            (src: resend-otp POST)
  * forgot-password route       (src: forgot-password POST)
  * sign-in route               (src/app/api/auth/signin/route.ts, POST)

Conventions of the embedding:
  * Timestamps are naturals (milliseconds); `Date.now()` becomes a `now`
    parameter; `new Date(a) < new Date(b)` becomes `a < b`.
  * `bcrypt.compare` and `bcrypt.hash` are opaque function parameters
    `bcompare : String → String → Bool` and `bhash : String → String`.
  * `generateOTP()` is an opaque `newOtp : String` parameter.
  * A JavaScript falsy test on an optional string (`!user.otp`) is
    `strFalsy`, true for `none` and for the empty string.
  * Mongo documents become a `User` structure; `updateOne` with `$set`
    becomes a record update; the route result carries the post-state of
    the user document (or the whole collection for the delete route).
-/

namespace NextAuth

/-- The user document as stored in the `users` collection
(UserDocument interface in the sign-in route / userSchema model). -/
structure User where
  id : String
  email : String
  password : Option String := none
  name : Option String := none
  role : Option String := none
  emailVerified : Bool := false
  otp : Option String := none
  otpExpiry : Option Nat := none
  lastLogin : Option Nat := none
  createdAt : Option Nat := none
  updatedAt : Option Nat := none
deriving Repr, DecidableEq

/-- JavaScript falsiness of an optional string value:
`null`/`undefined` and the empty string are falsy. -/
def strFalsy : Option String → Bool
  | none => true
  | some s => s.isEmpty

/-- JavaScript `x || null` on an optional string. -/
def jsOrNull : Option String → Option String
  | none => none
  | some s => if s.isEmpty then none else some s

/-- JavaScript `x || "user"` on the optional role string. -/
def jsOrUser : Option String → String
  | none => "user"
  | some s => if s.isEmpty then "user" else s

/-- Body of an HTTP response, abstracting the JSON payloads the routes
build: an error object, a message object, or a sanitized user object
(the latter with the optional "already_verified" status marker). -/
inductive RespBody where
  | errorMsg (s : String)
  | message (s : String)
  | userBody (email : String) (id : String) (name : Option String)
      (role : String) (emailVerified : Bool) (statusTag : Option String)
deriving Repr, DecidableEq

/-- An HTTP response as the claims observe it: status code, JSON body,
and whether a fresh session cookie is attached (`setAuthCookie`). -/
structure ApiResponse where
  status : Nat
  body : RespBody
  setsSessionCookie : Bool
deriving Repr, DecidableEq

/-- The sanitized user JSON object the verification route returns. -/
def userJson (u : User) (tag : Option String) : RespBody :=
  .userBody u.email u.id (jsOrNull u.name) (jsOrUser u.role) u.emailVerified tag

/-! ## Verification route (POST /api/auth/verification/[email]/[type]) -/

/-- Request body of the verification route: a JSON object that may carry
an `otp` field and/or a `password` field. -/
structure VerifyBody where
  otp : Option String := none
  password : Option String := none
deriving Repr, DecidableEq

/-- `otpVerificationSchema.safeParse`: succeeds iff the body has an
`otp` string of length exactly 6. -/
def otpParse (b : VerifyBody) : Option String :=
  match b.otp with
  | some s => if s.length = 6 then some s else none
  | none => none

/-- `passwordResetBodySchema.safeParse`: succeeds iff the body has a
`password` string of length at least 6 (userSchema.shape.password). -/
def passwordParse (b : VerifyBody) : Option String :=
  match b.password with
  | some p => if 6 ≤ p.length then some p else none
  | none => none

/-- The OTP validity check of the verification route:
`!user.otp || !user.otpExpiry || user.otp !== otp ||
 new Date(user.otpExpiry) < new Date()`. -/
def otpInvalid (u : User) (otp : String) (now : Nat) : Bool :=
  strFalsy u.otp || u.otpExpiry == none || u.otp != some otp ||
    (match u.otpExpiry with
     | some e => decide (e < now)
     | none => false)

/-- Result of the verification route: the HTTP response together with
the post-state of the user document (`none` when no user was found). -/
structure VerifyResult where
  resp : ApiResponse
  user : Option User
deriving Repr, DecidableEq

/-- The `$set` update applied on successful signup verification. -/
def signupVerifyUpdate (u : User) (now : Nat) : User :=
  { u with emailVerified := true, otp := none, otpExpiry := none,
           lastLogin := some now, updatedAt := some now }

/-- The `$set` update applied on password-reset completion. -/
def passwordResetUpdate (u : User) (hashed : String) (now : Nat) : User :=
  { u with password := some hashed, otp := none, otpExpiry := none,
           emailVerified := true, lastLogin := some now, updatedAt := some now }

/-- POST handler of the verification route, after JWT-secret check,
param extraction and user lookup (`found` is the `findOne` result). -/
def verifyPOST (bcompare : String → String → Bool) (bhash : String → String)
    (now : Nat) (ty : String) (found : Option User) (body : VerifyBody) :
    VerifyResult :=
  match found with
  | none => ⟨⟨404, .errorMsg "User not found.", false⟩, none⟩
  | some user =>
    match otpParse body with
    | some otp =>
      if ty = "signup" ∧ user.emailVerified then
        ⟨⟨200, userJson user (some "already_verified"), true⟩, some user⟩
      else if otpInvalid user otp now then
        ⟨⟨400, .errorMsg "Invalid or expired OTP.", false⟩, some user⟩
      else if ty = "signup" then
        let u := signupVerifyUpdate user now
        ⟨⟨200, userJson u none, true⟩, some u⟩
      else if ty = "password-reset" then
        ⟨⟨200, .message "OTP verified. Proceed to set new password.", false⟩,
          some user⟩
      else
        ⟨⟨400, .errorMsg "Invalid verification type.", false⟩, some user⟩
    | none =>
      match passwordParse body with
      | some newPassword =>
        if (!strFalsy user.password && bcompare newPassword (user.password.getD "")) then
          ⟨⟨400, .errorMsg "New password cannot be the same as the old password.",
             false⟩, some user⟩
        else
          let u := passwordResetUpdate user (bhash newPassword) now
          ⟨⟨200, userJson u none, true⟩, some u⟩
      | none =>
        ⟨⟨400, .errorMsg "Invalid request. Missing OTP or new password.",
           false⟩, some user⟩

/-! ## Sign-in route (POST /api/auth/signin) -/

/-- Result of the sign-in route: response plus post-state of the
looked-up user document (`none` when no user was found). -/
structure SigninResult where
  resp : ApiResponse
  user : Option User
deriving Repr, DecidableEq

/-- The `$set` update the sign-in route applies for an unverified user:
fresh OTP and expiry (now + 10 minutes). -/
def signinIssueOtpUpdate (u : User) (newOtp : String) (now : Nat) : User :=
  { u with otp := some newOtp, otpExpiry := some (now + 10 * 60 * 1000),
           updatedAt := some now }

/-- The `$set` update on successful sign-in: lastLogin/updatedAt. -/
def signinLastLoginUpdate (u : User) (now : Nat) : User :=
  { u with lastLogin := some now, updatedAt := some now }

/-- POST handler of the sign-in route, after JWT-secret check and Zod
validation (`found` is the case-insensitive `findOne` result for the
submitted email; `password` is the validated submitted password). -/
def signinPOST (bcompare : String → String → Bool) (newOtp : String)
    (now : Nat) (found : Option User) (password : String) : SigninResult :=
  match found with
  | none => ⟨⟨401, .errorMsg "Invalid credentials", false⟩, none⟩
  | some user =>
    if strFalsy user.password then
      ⟨⟨401, .errorMsg "Invalid credentials or account created via different method.",
         false⟩, some user⟩
    else if ¬ bcompare password (user.password.getD "") then
      ⟨⟨401, .errorMsg "Invalid credentials", false⟩, some user⟩
    else if ¬ user.emailVerified then
      ⟨⟨403, .errorMsg "Email not verified. A new verification code has been sent to your email address.",
         false⟩, some (signinIssueOtpUpdate user newOtp now)⟩
    else
      ⟨⟨200, .message "Signed in successfully", true⟩,
        some (signinLastLoginUpdate user now)⟩

/-! ## Resend-OTP and forgot-password routes -/

/-- The `type` field of the resend-OTP request body
(Zod enum "signup" | "password-reset"). -/
inductive OtpPurpose where
  | signup
  | passwordReset
deriving Repr, DecidableEq

/-- Result of the enumeration-sensitive routes (resend, forgot-password):
response, the artificial delay (ms) inserted before responding, and the
post-state of the user document. -/
structure EnumResult where
  status : Nat
  body : RespBody
  delayMs : Nat
  user : Option User
deriving Repr, DecidableEq

/-- The `$set` update issuing a fresh OTP in resend / forgot-password:
new OTP, expiry now + 10 minutes, updatedAt. -/
def issueOtpUpdate (u : User) (newOtp : String) (now : Nat) : User :=
  { u with otp := some newOtp, otpExpiry := some (now + 10 * 60 * 1000),
           updatedAt := some now }

/-- POST handler of the resend-OTP route, after Zod validation
(email well-formed, `ty` one of the two purposes). A fixed 1000 ms
delay runs before every branch below, user found or not. -/
def resendOtpPOST (newOtp : String) (now : Nat) (found : Option User)
    (ty : OtpPurpose) : EnumResult :=
  match found with
  | none =>
    ⟨200, .message "If an account with that email exists, a new OTP has been sent.",
      1000, none⟩
  | some user =>
    if ty = OtpPurpose.signup ∧ user.emailVerified then
      ⟨200, .message "If an account with that email exists, a new OTP has been sent.",
        1000, some user⟩
    else
      ⟨200, .message "If an account with that email exists, a new OTP has been sent.",
        1000, some (issueOtpUpdate user newOtp now)⟩

/-- POST handler of the forgot-password route, after Zod validation.
The source inserts no artificial delay on any path, so `delayMs = 0`. -/
def forgotPasswordPOST (newOtp : String) (now : Nat) (found : Option User) :
    EnumResult :=
  match found with
  | none =>
    ⟨200, .message "If your email is registered, a password reset code has been sent.",
      0, none⟩
  | some user =>
    ⟨200, .message "If your email is registered, a password reset code has been sent.",
      0, some (issueOtpUpdate user newOtp now)⟩

/-! ## Delete-account route (DELETE) -/

/-- Result of the delete-account route: status, body, whether the
response overwrites the `token` cookie with an empty value and past
expiry (revocation), and the post-state of the users collection. -/
structure DeleteResult where
  status : Nat
  body : RespBody
  clearsCookie : Bool
  db : List User
deriving Repr, DecidableEq

/-- Mongo `deleteOne {_id}` on the users collection: removes the first
document with the given id and reports the deleted count. -/
def deleteOneById : List User → String → List User × Nat
  | [], _ => ([], 0)
  | u :: rest, uid =>
    if u.id = uid then (rest, 1)
    else (u :: (deleteOneById rest uid).1, (deleteOneById rest uid).2)

/-- DELETE handler of the delete-account route. `cookieToken` is the
`token` cookie value if present; `verifyTok` models `jwt.verify`
(`none` = verification throws, `some payloadUserId` otherwise);
`objectIdValid` models whether `new ObjectId` accepts the id string.
The deleted account id comes only from the verified token payload —
the handler reads no request body. -/
def deleteAccountDELETE (verifyTok : String → Option String)
    (objectIdValid : String → Bool) (db : List User)
    (cookieToken : Option String) : DeleteResult :=
  match cookieToken with
  | none => ⟨401, .errorMsg "Authentication required.", false, db⟩
  | some t =>
    match verifyTok t with
    | none =>
      ⟨401, .errorMsg "Invalid or expired session. Please sign in again.",
        true, db⟩
    | some uid =>
      if uid.isEmpty then
        ⟨401, .errorMsg "Invalid or expired session. Please sign in again.",
          true, db⟩
      else if ¬ objectIdValid uid then
        ⟨500, .errorMsg "Failed to delete account due to a database issue.",
          false, db⟩
      else if (deleteOneById db uid).2 = 0 then
        ⟨404, .errorMsg "Account not found or already deleted.", true, db⟩
      else
        ⟨200, .message "Account deleted successfully.", true,
          (deleteOneById db uid).1⟩

/-! ## Concrete instantiations used by witnesses and counterexamples -/

/-- A concrete stand-in for bcrypt hashing in witnesses. -/
def testHash (p : String) : String := String.append "#" p

/-- A concrete stand-in for bcrypt comparison in witnesses. -/
def testCompare (p h : String) : Bool := String.append "#" p == h

/-- A verified account with a stored credential and no outstanding OTP. -/
def verifiedUser : User :=
  { id := "u1", email := "a@b.com", password := some "#oldpass1",
    emailVerified := true, otp := none, otpExpiry := none }

/-- An unverified account with an outstanding OTP challenge. -/
def challengedUser : User :=
  { id := "u2", email := "b@b.com", password := some "#oldpass1",
    emailVerified := false, otp := some "123456", otpExpiry := some 5000 }

/-- A federated-only account: present, but no stored credential. -/
def oauthUser : User :=
  { id := "u3", email := "c@d.com", password := none, emailVerified := true }

/-! ## The otp/otpExpiry pairing invariant -/

/-- `otp` and `otpExpiry` are both null or both non-null. -/
def otpPaired (u : User) : Prop := u.otp.isSome = u.otpExpiry.isSome

instance (u : User) : Decidable (otpPaired u) := by
  unfold otpPaired; infer_instance

/-! ## Helper lemmas -/

/-- A successfully parsed submitted OTP has exactly 6 characters. -/
lemma otpParse_length {b : VerifyBody} {otp : String}
    (h : otpParse b = some otp) : otp.length = 6 := by
  unfold otpParse at h
  cases hb : b.otp with
  | none => rw [hb] at h; exact absurd h (by simp)
  | some s =>
    rw [hb] at h
    by_cases hl : s.length = 6
    · simp [hl] at h; rw [← h]; exact hl
    · simp [hl] at h

/-- A successfully parsed submitted OTP is a nonempty string. -/
lemma otpParse_ne_empty {b : VerifyBody} {otp : String}
    (h : otpParse b = some otp) : otp ≠ "" := by
  intro he
  have := otpParse_length h
  rw [he] at this
  simp at this

/-- The already-verified guard of the verification route. -/
lemma verifyPOST_guard (bcompare : String → String → Bool)
    (bhash : String → String) (now : Nat) (user : User) (body : VerifyBody)
    (otp : String) (hver : user.emailVerified = true)
    (hotp : otpParse body = some otp) :
    verifyPOST bcompare bhash now "signup" (some user) body =
      ⟨⟨200, userJson user (some "already_verified"), true⟩, some user⟩ := by
  unfold verifyPOST
  rw [hotp]
  simp [hver]

/-- The OTP validity check passes when the stored OTP matches the
(nonempty) submitted one and the stored expiry is not in the past. -/
lemma otpInvalid_false (u : User) (otp : String) (now : Nat)
    (hstored : u.otp = some otp) (hne : otp ≠ "")
    (e : Nat) (hexp : u.otpExpiry = some e) (hnow : ¬ e < now) :
    otpInvalid u otp now = false := by
  have hb : otp.isEmpty = false := by
    rw [← Bool.not_eq_true, String.isEmpty_iff]
    exact hne
  unfold otpInvalid strFalsy
  rw [hstored, hexp]
  simp [hnow, hb]

/-- Characterization of the OTP validity check for a 6-character
submitted OTP: it rejects exactly when the stored OTP is missing, the
stored expiry is missing, the stored OTP differs from the submitted
one, or the expiry is strictly in the past. -/
lemma otpInvalid_iff (u : User) (otp : String) (now : Nat)
    (hne : otp ≠ "") :
    otpInvalid u otp now = true ↔
      (u.otp = none ∨ u.otpExpiry = none ∨ u.otp ≠ some otp ∨
        ∃ e, u.otpExpiry = some e ∧ e < now) := by
  unfold otpInvalid strFalsy
  cases ho : u.otp with
  | none => simp
  | some s =>
    cases he : u.otpExpiry with
    | none => simp
    | some e =>
      by_cases hs : s = otp
      · subst hs
        simp [String.isEmpty_iff, hne]
      · simp [hs, Option.some_inj]

/-- The InvalidOrExpiredOtp branch of the verification route. -/
lemma verifyPOST_otpInvalid (bcompare : String → String → Bool)
    (bhash : String → String) (now : Nat) (ty : String) (user : User)
    (body : VerifyBody) (otp : String)
    (hotp : otpParse body = some otp)
    (hguard : ¬ (ty = "signup" ∧ user.emailVerified = true))
    (hin : otpInvalid user otp now = true) :
    verifyPOST bcompare bhash now ty (some user) body =
      ⟨⟨400, .errorMsg "Invalid or expired OTP.", false⟩, some user⟩ := by
  unfold verifyPOST
  rw [hotp]
  simp [hguard, hin]

/-- The successful signup-verification branch. -/
lemma verifyPOST_signup_success (bcompare : String → String → Bool)
    (bhash : String → String) (now : Nat) (user : User)
    (body : VerifyBody) (otp : String)
    (hnv : user.emailVerified = false)
    (hotp : otpParse body = some otp)
    (hvalid : otpInvalid user otp now = false) :
    verifyPOST bcompare bhash now "signup" (some user) body =
      ⟨⟨200, userJson (signupVerifyUpdate user now) none, true⟩,
        some (signupVerifyUpdate user now)⟩ := by
  unfold verifyPOST
  rw [hotp]
  simp [hnv, hvalid]

/-- The password-reset OTP-confirmation branch: 200, no cookie, no
state change. -/
lemma verifyPOST_reset_otp_step (bcompare : String → String → Bool)
    (bhash : String → String) (now : Nat) (user : User)
    (body : VerifyBody) (otp : String)
    (hotp : otpParse body = some otp)
    (hvalid : otpInvalid user otp now = false) :
    verifyPOST bcompare bhash now "password-reset" (some user) body =
      ⟨⟨200, .message "OTP verified. Proceed to set new password.", false⟩,
        some user⟩ := by
  have hty : ("password-reset" : String) ≠ "signup" := by decide
  unfold verifyPOST
  rw [hotp]
  simp [hty, hvalid]

/-- The unhandled-verification-type branch. -/
lemma verifyPOST_invalid_type (bcompare : String → String → Bool)
    (bhash : String → String) (now : Nat) (ty : String) (user : User)
    (body : VerifyBody) (otp : String)
    (hotp : otpParse body = some otp)
    (hvalid : otpInvalid user otp now = false)
    (h1 : ty ≠ "signup") (h2 : ty ≠ "password-reset") :
    verifyPOST bcompare bhash now ty (some user) body =
      ⟨⟨400, .errorMsg "Invalid verification type.", false⟩, some user⟩ := by
  unfold verifyPOST
  rw [hotp]
  simp [hvalid, h1, h2]

/-! ## Claim theorems -/

/-- C2: for every account with emailVerified = true, a verify request
with purpose signup and any well-formed submitted OTP short-circuits to
success: status 200, a session cookie is set, and the stored account
state is unchanged; moreover, after any first verify(signup) call on
the same body that returned status 200 with post-state u1, a second
call on u1 succeeds via the already-verified guard. -/
theorem c2_verify_signup_already_verified
    (bcompare : String → String → Bool) (bhash : String → String)
    (now : Nat) (user : User) (body : VerifyBody) (otp : String)
    (hver : user.emailVerified = true)
    (hotp : otpParse body = some otp) :
    verifyPOST bcompare bhash now "signup" (some user) body =
      ⟨⟨200, userJson user (some "already_verified"), true⟩, some user⟩ ∧
    (∀ user₀ u1 : User,
      (verifyPOST bcompare bhash now "signup" (some user₀) body).resp.status = 200 →
      (verifyPOST bcompare bhash now "signup" (some user₀) body).user = some u1 →
      verifyPOST bcompare bhash now "signup" (some u1) body =
        ⟨⟨200, userJson u1 (some "already_verified"), true⟩, some u1⟩) := by
  refine ⟨verifyPOST_guard bcompare bhash now user body otp hver hotp, ?_⟩
  intro user₀ u1 h200 huser
  by_cases hv : user₀.emailVerified = true
  · have h1 := verifyPOST_guard bcompare bhash now user₀ body otp hv hotp
    rw [h1] at huser
    simp only [Option.some_inj] at huser
    rw [show u1 = user₀ from huser.symm]
    exact verifyPOST_guard bcompare bhash now user₀ body otp hv hotp
  · have hnv : user₀.emailVerified = false := Bool.eq_false_iff.mpr hv
    by_cases hin : otpInvalid user₀ otp now = true
    · have h2 := verifyPOST_otpInvalid bcompare bhash now "signup" user₀ body otp
        hotp (by simp [hnv]) hin
      rw [h2] at h200
      simp at h200
    · have hval : otpInvalid user₀ otp now = false := Bool.eq_false_iff.mpr hin
      have h3 := verifyPOST_signup_success bcompare bhash now user₀ body otp
        hnv hotp hval
      rw [h3] at huser
      simp only [Option.some_inj] at huser
      subst huser
      exact verifyPOST_guard bcompare bhash now (signupVerifyUpdate user₀ now)
        body otp rfl hotp

/-- C5: for every account not covered by the already-verified signup
guard, a verify request with a submitted OTP fails with
InvalidOrExpiredOtp (status 400) iff the stored otp is missing, the
stored otpExpiry is missing, the submitted OTP differs from the stored
otp, or otpExpiry is strictly earlier than now (equality at the
boundary still valid); on this failure the state is unchanged and no
session cookie is set. -/
theorem c5_verify_invalid_or_expired_otp
    (bcompare : String → String → Bool) (bhash : String → String)
    (now : Nat) (ty : String) (user : User) (body : VerifyBody)
    (otp : String)
    (hotp : otpParse body = some otp)
    (hguard : ¬ (ty = "signup" ∧ user.emailVerified = true)) :
    ((verifyPOST bcompare bhash now ty (some user) body).resp =
        ⟨400, .errorMsg "Invalid or expired OTP.", false⟩ ↔
      (user.otp = none ∨ user.otpExpiry = none ∨ user.otp ≠ some otp ∨
        ∃ e, user.otpExpiry = some e ∧ e < now)) ∧
    ((user.otp = none ∨ user.otpExpiry = none ∨ user.otp ≠ some otp ∨
        ∃ e, user.otpExpiry = some e ∧ e < now) →
      verifyPOST bcompare bhash now ty (some user) body =
        ⟨⟨400, .errorMsg "Invalid or expired OTP.", false⟩, some user⟩) := by
  have hne := otpParse_ne_empty hotp
  have hiff := otpInvalid_iff user otp now hne
  have hfail : (user.otp = none ∨ user.otpExpiry = none ∨
      user.otp ≠ some otp ∨ ∃ e, user.otpExpiry = some e ∧ e < now) →
      verifyPOST bcompare bhash now ty (some user) body =
        ⟨⟨400, .errorMsg "Invalid or expired OTP.", false⟩, some user⟩ :=
    fun hconds => verifyPOST_otpInvalid bcompare bhash now ty user body otp
      hotp hguard (hiff.mpr hconds)
  refine ⟨⟨?_, fun hconds => by rw [hfail hconds]⟩, hfail⟩
  intro hresp
  by_contra hconds
  have hval : otpInvalid user otp now = false :=
    Bool.eq_false_iff.mpr (fun h => hconds (hiff.mp h))
  by_cases h1 : ty = "signup"
  · subst h1
    have hnv : user.emailVerified = false :=
      Bool.eq_false_iff.mpr (fun hb => hguard ⟨rfl, hb⟩)
    rw [verifyPOST_signup_success bcompare bhash now user body otp hnv hotp hval]
      at hresp
    simp at hresp
  · by_cases h2 : ty = "password-reset"
    · subst h2
      rw [verifyPOST_reset_otp_step bcompare bhash now user body otp hotp hval]
        at hresp
      simp at hresp
    · rw [verifyPOST_invalid_type bcompare bhash now ty user body otp hotp
        hval h1 h2] at hresp
      simp at hresp

/-- C6: for every unverified account with a matching, unexpired OTP, a
verify request with purpose signup performs a single store update that
clears otp and otpExpiry, sets emailVerified, and stamps lastLogin and
updatedAt; the response is 200 with a session cookie. -/
theorem c6_verify_signup_success_update
    (bcompare : String → String → Bool) (bhash : String → String)
    (now : Nat) (user : User) (body : VerifyBody) (otp : String) (e : Nat)
    (hnv : user.emailVerified = false)
    (hotp : otpParse body = some otp)
    (hstored : user.otp = some otp)
    (hexp : user.otpExpiry = some e)
    (hnow : ¬ e < now) :
    verifyPOST bcompare bhash now "signup" (some user) body =
      ⟨⟨200, userJson (signupVerifyUpdate user now) none, true⟩,
        some (signupVerifyUpdate user now)⟩ ∧
    signupVerifyUpdate user now =
      { user with emailVerified := true, otp := none, otpExpiry := none,
                  lastLogin := some now, updatedAt := some now } :=
  ⟨verifyPOST_signup_success bcompare bhash now user body otp hnv hotp
      (otpInvalid_false user otp now hstored (otpParse_ne_empty hotp) e hexp hnow),
    rfl⟩

/-- C8: for every account with a matching, unexpired OTP, a verify
request with purpose password-reset returns the proceed message with
status 200, sets no session cookie, and leaves the account entirely
unchanged (otp and otpExpiry retained). -/
theorem c8_verify_password_reset_otp_retained
    (bcompare : String → String → Bool) (bhash : String → String)
    (now : Nat) (user : User) (body : VerifyBody) (otp : String) (e : Nat)
    (hotp : otpParse body = some otp)
    (hstored : user.otp = some otp)
    (hexp : user.otpExpiry = some e)
    (hnow : ¬ e < now) :
    verifyPOST bcompare bhash now "password-reset" (some user) body =
      ⟨⟨200, .message "OTP verified. Proceed to set new password.", false⟩,
        some user⟩ :=
  verifyPOST_reset_otp_step bcompare bhash now user body otp hotp
    (otpInvalid_false user otp now hstored (otpParse_ne_empty hotp) e hexp hnow)

/-- C7: the password-reset completion rejects a new password that
bcrypt-compares equal to the stored credential with SamePassword
(400, state unchanged); a differing new password succeeds: the new
hash is stored, otp/otpExpiry cleared, emailVerified set, lastLogin
and updatedAt stamped, and a session cookie is set. -/
theorem c7_password_reset_same_password
    (bcompare : String → String → Bool) (bhash : String → String)
    (now : Nat) (ty : String) (user : User) (body : VerifyBody)
    (p h : String)
    (hnototp : otpParse body = none)
    (hpw : passwordParse body = some p)
    (hcred : user.password = some h)
    (hne : h ≠ "") :
    (bcompare p h = true →
      verifyPOST bcompare bhash now ty (some user) body =
        ⟨⟨400, .errorMsg "New password cannot be the same as the old password.",
           false⟩, some user⟩) ∧
    (bcompare p h = false →
      verifyPOST bcompare bhash now ty (some user) body =
        ⟨⟨200, userJson (passwordResetUpdate user (bhash p) now) none, true⟩,
          some (passwordResetUpdate user (bhash p) now)⟩ ∧
      passwordResetUpdate user (bhash p) now =
        { user with password := some (bhash p), otp := none, otpExpiry := none,
                    emailVerified := true, lastLogin := some now,
                    updatedAt := some now }) := by
  have hsf : strFalsy user.password = false := by
    rw [hcred]
    unfold strFalsy
    rw [← Bool.not_eq_true, String.isEmpty_iff]
    exact hne
  have hget : user.password.getD "" = h := by rw [hcred]; rfl
  constructor
  · intro hcmp
    unfold verifyPOST
    rw [hnototp, hpw]
    simp [hsf, hget, hcmp]
  · intro hcmp
    refine ⟨?_, rfl⟩
    unfold verifyPOST
    rw [hnototp, hpw]
    simp [hsf, hget, hcmp]

/-- C1 (amended): the password-reset completion step performs no check
of the otp/otpExpiry fields — for any found account, any validly
parsed new password that does not bcrypt-compare equal to the stored
credential is applied, whatever the OTP state. -/
theorem c1_password_reset_completion_unguarded
    (bcompare : String → String → Bool) (bhash : String → String)
    (now : Nat) (ty : String) (user : User) (body : VerifyBody) (p : String)
    (hnototp : otpParse body = none)
    (hpw : passwordParse body = some p)
    (hdiff : (!strFalsy user.password &&
        bcompare p (user.password.getD "")) = false) :
    verifyPOST bcompare bhash now ty (some user) body =
      ⟨⟨200, userJson (passwordResetUpdate user (bhash p) now) none, true⟩,
        some (passwordResetUpdate user (bhash p) now)⟩ := by
  unfold verifyPOST
  rw [hnototp, hpw]
  simp [hdiff]

/-- C1 counterexample: an account with no OTP challenge outstanding
(otp and otpExpiry both null) still has its stored credential replaced
by the password-reset completion step, which answers 200. -/
theorem c1_counterexample_reset_without_challenge :
    verifiedUser.otp = none ∧ verifiedUser.otpExpiry = none ∧
    verifyPOST testCompare testHash 1000 "password-reset"
        (some verifiedUser) ⟨none, some "newpass1"⟩ =
      ⟨⟨200, userJson (passwordResetUpdate verifiedUser "#newpass1" 1000) none,
         true⟩, some (passwordResetUpdate verifiedUser "#newpass1" 1000)⟩ ∧
    (passwordResetUpdate verifiedUser "#newpass1" 1000).password =
      some "#newpass1" ∧
    verifiedUser.password = some "#oldpass1" := by decide

/-- C3 (amended): resend-otp and forgot-password each return 200 with
a body that does not depend on whether the account exists; resend-otp
waits a fixed 1000 ms artificial delay, while forgot-password inserts
no artificial delay at all. -/
theorem c3_enumeration_safe_responses (newOtp newOtp2 : String)
    (now now2 : Nat) (found : Option User) (ty : OtpPurpose) :
    (resendOtpPOST newOtp now found ty).status = 200 ∧
    (resendOtpPOST newOtp now found ty).body =
      (resendOtpPOST newOtp2 now2 none ty).body ∧
    (resendOtpPOST newOtp now found ty).delayMs = 1000 ∧
    (forgotPasswordPOST newOtp now found).status = 200 ∧
    (forgotPasswordPOST newOtp now found).body =
      (forgotPasswordPOST newOtp2 now2 none).body ∧
    (forgotPasswordPOST newOtp now found).delayMs = 0 := by
  rcases found with _ | user
  · simp [resendOtpPOST, forgotPasswordPOST]
  · by_cases hg : ty = OtpPurpose.signup ∧ user.emailVerified = true <;>
      simp [resendOtpPOST, forgotPasswordPOST, hg]

/-- C3 counterexample: the forgot-password route responds without any
artificial delay (0 ms, not ~1000 ms), whether or not the account
exists. -/
theorem c3_counterexample_forgot_password_no_delay :
    (forgotPasswordPOST "123456" 0 none).delayMs = 0 ∧
    (forgotPasswordPOST "123456" 0 (some verifiedUser)).delayMs = 0 ∧
    (resendOtpPOST "123456" 0 none OtpPurpose.passwordReset).delayMs = 1000 := by
  decide

/-- C4 (amended): all three sign-in failure causes answer 401 with a
generic error and no cookie; the absent-account and password-mismatch
causes share the identical message "Invalid credentials", but the
no-stored-credential cause answers a different message that reveals
the account was created via another method. -/
theorem c4_signin_failures_generic_401
    (bcompare : String → String → Bool) (newOtp : String) (now : Nat)
    (password : String) (user : User) (h : String) :
    signinPOST bcompare newOtp now none password =
      ⟨⟨401, .errorMsg "Invalid credentials", false⟩, none⟩ ∧
    (strFalsy user.password = true →
      signinPOST bcompare newOtp now (some user) password =
        ⟨⟨401, .errorMsg "Invalid credentials or account created via different method.",
           false⟩, some user⟩) ∧
    (user.password = some h → h ≠ "" → bcompare password h = false →
      signinPOST bcompare newOtp now (some user) password =
        ⟨⟨401, .errorMsg "Invalid credentials", false⟩, some user⟩) := by
  refine ⟨rfl, ?_, ?_⟩
  · intro hf
    unfold signinPOST
    simp [hf]
  · intro hcred hne hcmp
    have hsf : strFalsy user.password = false := by
      rw [hcred]
      unfold strFalsy
      rw [← Bool.not_eq_true, String.isEmpty_iff]
      exact hne
    have hget : user.password.getD "" = h := by rw [hcred]; rfl
    unfold signinPOST
    simp [hsf, hget, hcmp]

/-- C4 counterexample: the no-stored-credential failure and the
absent-account failure both answer 401, but with different messages —
the claim that no message difference exists is false. -/
theorem c4_counterexample_signin_message_differs :
    (signinPOST testCompare "123456" 0 (some oauthUser) "secret1").resp.status
        = 401 ∧
    (signinPOST testCompare "123456" 0 none "secret1").resp.status = 401 ∧
    (signinPOST testCompare "123456" 0 (some oauthUser) "secret1").resp.body ≠
      (signinPOST testCompare "123456" 0 none "secret1").resp.body := by
  decide

/-- A document removed by `deleteOneById` carries exactly the filter id. -/
lemma mem_deleteOneById (uid : String) (u : User) :
    ∀ db : List User, u ∈ db → u ∉ (deleteOneById db uid).1 → u.id = uid := by
  intro db
  induction db with
  | nil => intro hu; cases hu
  | cons a rest ih =>
    intro hu hnot
    unfold deleteOneById at hnot
    by_cases h : a.id = uid
    · rw [if_pos h] at hnot
      rcases List.mem_cons.mp hu with rfl | hrest
      · exact h
      · exact absurd hrest hnot
    · rw [if_neg h] at hnot
      rcases List.mem_cons.mp hu with rfl | hrest
      · exact absurd (List.mem_cons_self _ _) hnot
      · exact ih hrest (fun hm => hnot (List.mem_cons_of_mem _ hm))

/-- Delete route, missing-cookie path. -/
lemma deleteDELETE_noToken (verifyTok : String → Option String)
    (objectIdValid : String → Bool) (db : List User) :
    deleteAccountDELETE verifyTok objectIdValid db none =
      ⟨401, .errorMsg "Authentication required.", false, db⟩ := rfl

/-- Delete route, invalid-token path. -/
lemma deleteDELETE_invalidToken (verifyTok : String → Option String)
    (objectIdValid : String → Bool) (db : List User) (t : String)
    (hv : verifyTok t = none) :
    deleteAccountDELETE verifyTok objectIdValid db (some t) =
      ⟨401, .errorMsg "Invalid or expired session. Please sign in again.",
        true, db⟩ := by
  simp only [deleteAccountDELETE]
  rw [hv]

/-- Delete route, empty-userId path (payload check throws). -/
lemma deleteDELETE_emptyUid (verifyTok : String → Option String)
    (objectIdValid : String → Bool) (db : List User) (t uid : String)
    (hv : verifyTok t = some uid) (he : uid.isEmpty = true) :
    deleteAccountDELETE verifyTok objectIdValid db (some t) =
      ⟨401, .errorMsg "Invalid or expired session. Please sign in again.",
        true, db⟩ := by
  simp only [deleteAccountDELETE]
  rw [hv]
  simp [he]

/-- Delete route, not-found path. -/
lemma deleteDELETE_notFound (verifyTok : String → Option String)
    (objectIdValid : String → Bool) (db : List User) (t uid : String)
    (hv : verifyTok t = some uid) (he : uid.isEmpty = false)
    (ho : objectIdValid uid = true) (hc : (deleteOneById db uid).2 = 0) :
    deleteAccountDELETE verifyTok objectIdValid db (some t) =
      ⟨404, .errorMsg "Account not found or already deleted.", true, db⟩ := by
  simp only [deleteAccountDELETE]
  rw [hv]
  simp [he, ho, hc]

/-- Delete route, success path. -/
lemma deleteDELETE_success (verifyTok : String → Option String)
    (objectIdValid : String → Bool) (db : List User) (t uid : String)
    (hv : verifyTok t = some uid) (he : uid.isEmpty = false)
    (ho : objectIdValid uid = true) (hc : (deleteOneById db uid).2 ≠ 0) :
    deleteAccountDELETE verifyTok objectIdValid db (some t) =
      ⟨200, .message "Account deleted successfully.", true,
        (deleteOneById db uid).1⟩ := by
  simp only [deleteAccountDELETE]
  rw [hv]
  simp [he, ho, hc]

/-- Delete route, invalid-ObjectId path (constructor throws, 500). -/
lemma deleteDELETE_objectIdError (verifyTok : String → Option String)
    (objectIdValid : String → Bool) (db : List User) (t uid : String)
    (hv : verifyTok t = some uid) (he : uid.isEmpty = false)
    (ho : objectIdValid uid = false) :
    deleteAccountDELETE verifyTok objectIdValid db (some t) =
      ⟨500, .errorMsg "Failed to delete account due to a database issue.",
        false, db⟩ := by
  simp only [deleteAccountDELETE]
  rw [hv]
  simp [he, ho]

/-- C9 (amended): any account removed by the delete-account route is
exactly the one whose id is embedded in the verified session token
(the route reads no client-supplied id); the session cookie is revoked
on the success, not-found and invalid-token paths, but the
missing-cookie 401 path sets no revocation cookie. -/
theorem c9_delete_account_token_scoped
    (verifyTok : String → Option String) (objectIdValid : String → Bool)
    (db : List User) (cookieToken : Option String) :
    (∀ u : User, u ∈ db →
        u ∉ (deleteAccountDELETE verifyTok objectIdValid db cookieToken).db →
        ∃ t, cookieToken = some t ∧ verifyTok t = some u.id) ∧
    ((deleteAccountDELETE verifyTok objectIdValid db cookieToken).status = 200 ∨
       (deleteAccountDELETE verifyTok objectIdValid db cookieToken).status = 404 →
      (deleteAccountDELETE verifyTok objectIdValid db cookieToken).clearsCookie
        = true) ∧
    (∀ t, cookieToken = some t →
        (deleteAccountDELETE verifyTok objectIdValid db cookieToken).status = 401 →
        (deleteAccountDELETE verifyTok objectIdValid db cookieToken).clearsCookie
          = true) ∧
    (cookieToken = none →
      (deleteAccountDELETE verifyTok objectIdValid db cookieToken).status = 401 ∧
      (deleteAccountDELETE verifyTok objectIdValid db cookieToken).clearsCookie
        = false) := by
  rcases cookieToken with _ | t
  · rw [deleteDELETE_noToken]
    refine ⟨fun u hu hnot => absurd hu hnot, ?_, ?_, fun _ => ⟨rfl, rfl⟩⟩
    · rintro (hs | hs) <;> simp at hs
    · intro t ht h401
      exact Option.noConfusion ht
  · rcases hv : verifyTok t with _ | uid
    · rw [deleteDELETE_invalidToken verifyTok objectIdValid db t hv]
      exact ⟨fun u hu hnot => absurd hu hnot, fun _ => rfl, fun _ _ _ => rfl,
        fun hn => Option.noConfusion hn⟩
    · rcases he : uid.isEmpty with _ | _
      · rcases ho : objectIdValid uid with _ | _
        · rw [deleteDELETE_objectIdError verifyTok objectIdValid db t uid hv
            he ho]
          refine ⟨fun u hu hnot => absurd hu hnot, ?_, ?_,
            fun hn => Option.noConfusion hn⟩
          · rintro (hs | hs) <;> simp at hs
          · intro t2 ht2 hs
            simp at hs
        · rcases hc : (deleteOneById db uid).2 with _ | n
          · rw [deleteDELETE_notFound verifyTok objectIdValid db t uid hv he
              ho hc]
            exact ⟨fun u hu hnot => absurd hu hnot, fun _ => rfl,
              fun _ _ _ => rfl, fun hn => Option.noConfusion hn⟩
          · rw [deleteDELETE_success verifyTok objectIdValid db t uid hv he ho
              (by rw [hc]; exact Nat.succ_ne_zero n)]
            refine ⟨?_, fun _ => rfl, fun _ _ _ => rfl,
              fun hn => Option.noConfusion hn⟩
            intro u hu hnot
            exact ⟨t, rfl, by rw [hv, mem_deleteOneById uid u db hu hnot]⟩
      · rw [deleteDELETE_emptyUid verifyTok objectIdValid db t uid hv he]
        exact ⟨fun u hu hnot => absurd hu hnot, fun _ => rfl, fun _ _ _ => rfl,
          fun hn => Option.noConfusion hn⟩

/-- C9 counterexample: with no `token` cookie in the request, the route
answers 401 without overwriting the cookie — the authentication-failure
path does not revoke. -/
theorem c9_counterexample_no_cookie_not_revoked :
    (deleteAccountDELETE (fun _ => some "u1") (fun _ => true)
        [verifiedUser] none).status = 401 ∧
    (deleteAccountDELETE (fun _ => some "u1") (fun _ => true)
        [verifiedUser] none).clearsCookie = false := by
  decide

/-- Post-state shape of the verification route: the stored user is
either untouched, the signup-verification update, or the
password-reset update. -/
lemma verifyPOST_user_shape (bcompare : String → String → Bool)
    (bhash : String → String) (now : Nat) (ty : String) (user : User)
    (body : VerifyBody) (u : User)
    (hu : (verifyPOST bcompare bhash now ty (some user) body).user = some u) :
    u = user ∨ u = signupVerifyUpdate user now ∨
      ∃ p, u = passwordResetUpdate user (bhash p) now := by
  simp only [verifyPOST] at hu
  rcases ho : otpParse body with _ | otp <;> simp only [ho] at hu
  · rcases hp : passwordParse body with _ | p <;> simp only [hp] at hu
    · exact Or.inl (Option.some_inj.mp hu).symm
    · by_cases hc : (!strFalsy user.password &&
          bcompare p (user.password.getD "")) = true
      · rw [if_pos hc] at hu
        exact Or.inl (Option.some_inj.mp hu).symm
      · rw [if_neg hc] at hu
        exact Or.inr (Or.inr ⟨p, (Option.some_inj.mp hu).symm⟩)
  · by_cases hg : ty = "signup" ∧ user.emailVerified = true
    · rw [if_pos hg] at hu
      exact Or.inl (Option.some_inj.mp hu).symm
    · rw [if_neg hg] at hu
      by_cases hin : otpInvalid user otp now = true
      · rw [if_pos hin] at hu
        exact Or.inl (Option.some_inj.mp hu).symm
      · rw [if_neg hin] at hu
        by_cases h1 : ty = "signup"
        · rw [if_pos h1] at hu
          exact Or.inr (Or.inl (Option.some_inj.mp hu).symm)
        · rw [if_neg h1] at hu
          by_cases h2 : ty = "password-reset"
          · rw [if_pos h2] at hu
            exact Or.inl (Option.some_inj.mp hu).symm
          · rw [if_neg h2] at hu
            exact Or.inl (Option.some_inj.mp hu).symm

/-- Post-state shape of the sign-in route: untouched, fresh-OTP issue,
or lastLogin stamp. -/
lemma signinPOST_user_shape (bcompare : String → String → Bool)
    (newOtp : String) (now : Nat) (user : User) (password : String) (u : User)
    (hu : (signinPOST bcompare newOtp now (some user) password).user = some u) :
    u = user ∨ u = signinIssueOtpUpdate user newOtp now ∨
      u = signinLastLoginUpdate user now := by
  simp only [signinPOST] at hu
  by_cases h1 : strFalsy user.password = true
  · rw [if_pos h1] at hu
    exact Or.inl (Option.some_inj.mp hu).symm
  · rw [if_neg h1] at hu
    by_cases h2 : ¬ bcompare password (user.password.getD "") = true
    · rw [if_pos h2] at hu
      exact Or.inl (Option.some_inj.mp hu).symm
    · rw [if_neg h2] at hu
      by_cases h3 : ¬ user.emailVerified = true
      · rw [if_pos h3] at hu
        exact Or.inr (Or.inl (Option.some_inj.mp hu).symm)
      · rw [if_neg h3] at hu
        exact Or.inr (Or.inr (Option.some_inj.mp hu).symm)

/-- C10: every lifecycle operation preserves the invariant that otp
and otpExpiry are both null or both non-null — each reachable update
sets both together (sign-in with unverified email, resend,
forgot-password) or clears both together (signup verification,
password-reset completion). -/
theorem c10_otp_fields_paired
    (bcompare : String → String → Bool) (bhash : String → String)
    (newOtp : String) (now : Nat) (user : User) (password : String)
    (body : VerifyBody) (ty : String) (purpose : OtpPurpose)
    (hpair : otpPaired user) :
    (∀ u, (signinPOST bcompare newOtp now (some user) password).user = some u →
      otpPaired u) ∧
    (∀ u, (resendOtpPOST newOtp now (some user) purpose).user = some u →
      otpPaired u) ∧
    (∀ u, (forgotPasswordPOST newOtp now (some user)).user = some u →
      otpPaired u) ∧
    (∀ u, (verifyPOST bcompare bhash now ty (some user) body).user = some u →
      otpPaired u) := by
  refine ⟨?_, ?_, ?_, ?_⟩
  · intro u hu
    rcases signinPOST_user_shape bcompare newOtp now user password u hu with
      rfl | rfl | rfl
    · exact hpair
    · rfl
    · exact hpair
  · intro u hu
    simp only [resendOtpPOST] at hu
    by_cases hg : purpose = OtpPurpose.signup ∧ user.emailVerified = true
    · rw [if_pos hg] at hu
      rw [← Option.some_inj.mp hu]
      exact hpair
    · rw [if_neg hg] at hu
      rw [← Option.some_inj.mp hu]
      rfl
  · intro u hu
    simp only [forgotPasswordPOST] at hu
    rw [← Option.some_inj.mp hu]
    rfl
  · intro u hu
    rcases verifyPOST_user_shape bcompare bhash now ty user body u hu with
      rfl | rfl | ⟨p, rfl⟩
    · exact hpair
    · rfl
    · rfl

/-! ## Witnesses instantiating the hypothesis-bearing theorems -/

/-- C2 witness: the guard fires at a concrete already-verified account. -/
theorem c2_verify_signup_already_verified_witness :
    verifiedUser.emailVerified = true ∧
    otpParse ⟨some "123456", none⟩ = some "123456" ∧
    verifyPOST testCompare testHash 7 "signup" (some verifiedUser)
        ⟨some "123456", none⟩ =
      ⟨⟨200, userJson verifiedUser (some "already_verified"), true⟩,
        some verifiedUser⟩ :=
  ⟨rfl, by decide,
    (c2_verify_signup_already_verified testCompare testHash 7 verifiedUser
        ⟨some "123456", none⟩ "123456" rfl (by decide)).1⟩

/-- C5 witness: a wrong submitted code is rejected as
InvalidOrExpiredOtp with no state change. -/
theorem c5_verify_invalid_or_expired_otp_witness :
    otpParse ⟨some "000000", none⟩ = some "000000" ∧
    ¬ ("password-reset" = "signup" ∧ challengedUser.emailVerified = true) ∧
    verifyPOST testCompare testHash 0 "password-reset" (some challengedUser)
        ⟨some "000000", none⟩ =
      ⟨⟨400, .errorMsg "Invalid or expired OTP.", false⟩,
        some challengedUser⟩ :=
  ⟨by decide, by decide,
    (c5_verify_invalid_or_expired_otp testCompare testHash 0 "password-reset"
        challengedUser ⟨some "000000", none⟩ "000000" (by decide)
        (by decide)).2 (Or.inr (Or.inr (Or.inl (by decide))))⟩

/-- C6 witness: a matching, unexpired OTP verifies a concrete
unverified account. -/
theorem c6_verify_signup_success_update_witness :
    challengedUser.emailVerified = false ∧
    otpParse ⟨some "123456", none⟩ = some "123456" ∧
    challengedUser.otp = some "123456" ∧
    challengedUser.otpExpiry = some 5000 ∧
    ¬ (5000 < 100) ∧
    verifyPOST testCompare testHash 100 "signup" (some challengedUser)
        ⟨some "123456", none⟩ =
      ⟨⟨200, userJson (signupVerifyUpdate challengedUser 100) none, true⟩,
        some (signupVerifyUpdate challengedUser 100)⟩ :=
  ⟨rfl, by decide, rfl, rfl, by decide,
    (c6_verify_signup_success_update testCompare testHash 100 challengedUser
        ⟨some "123456", none⟩ "123456" 5000 rfl (by decide) rfl rfl
        (by decide)).1⟩

/-- C7 witness: submitting the current password is rejected as
SamePassword at a concrete account. -/
theorem c7_password_reset_same_password_witness :
    otpParse ⟨none, some "oldpass1"⟩ = none ∧
    passwordParse ⟨none, some "oldpass1"⟩ = some "oldpass1" ∧
    verifiedUser.password = some "#oldpass1" ∧
    testCompare "oldpass1" "#oldpass1" = true ∧
    verifyPOST testCompare testHash 9 "password-reset" (some verifiedUser)
        ⟨none, some "oldpass1"⟩ =
      ⟨⟨400, .errorMsg "New password cannot be the same as the old password.",
         false⟩, some verifiedUser⟩ :=
  ⟨rfl, by decide, rfl, by decide,
    (c7_password_reset_same_password testCompare testHash 9 "password-reset"
        verifiedUser ⟨none, some "oldpass1"⟩ "oldpass1" "#oldpass1" rfl
        (by decide) rfl (by decide)).1 (by decide)⟩

/-- C8 witness: OTP confirmation for password reset at the exact expiry
boundary (otpExpiry = now) still succeeds and retains all fields. -/
theorem c8_verify_password_reset_otp_retained_witness :
    otpParse ⟨some "123456", none⟩ = some "123456" ∧
    challengedUser.otp = some "123456" ∧
    challengedUser.otpExpiry = some 5000 ∧
    ¬ (5000 < 5000) ∧
    verifyPOST testCompare testHash 5000 "password-reset"
        (some challengedUser) ⟨some "123456", none⟩ =
      ⟨⟨200, .message "OTP verified. Proceed to set new password.", false⟩,
        some challengedUser⟩ :=
  ⟨by decide, rfl, rfl, by decide,
    c8_verify_password_reset_otp_retained testCompare testHash 5000
      challengedUser ⟨some "123456", none⟩ "123456" 5000 (by decide) rfl rfl
      (by decide)⟩

/-- C1 witness for the amended claim: the completion step succeeds on a
concrete account with no OTP challenge at all. -/
theorem c1_password_reset_completion_unguarded_witness :
    otpParse ⟨none, some "newpass1"⟩ = none ∧
    passwordParse ⟨none, some "newpass1"⟩ = some "newpass1" ∧
    (!strFalsy verifiedUser.password &&
      testCompare "newpass1" (verifiedUser.password.getD "")) = false ∧
    verifiedUser.otp = none ∧ verifiedUser.otpExpiry = none ∧
    verifyPOST testCompare testHash 1000 "password-reset" (some verifiedUser)
        ⟨none, some "newpass1"⟩ =
      ⟨⟨200, userJson (passwordResetUpdate verifiedUser "#newpass1" 1000) none,
         true⟩, some (passwordResetUpdate verifiedUser "#newpass1" 1000)⟩ :=
  ⟨rfl, by decide, by decide, rfl, rfl,
    c1_password_reset_completion_unguarded testCompare testHash 1000
      "password-reset" verifiedUser ⟨none, some "newpass1"⟩ "newpass1" rfl
      (by decide) (by decide)⟩

/-- C4 witness for the amended claim: the three concrete failure paths. -/
theorem c4_signin_failures_generic_401_witness :
    strFalsy oauthUser.password = true ∧
    verifiedUser.password = some "#oldpass1" ∧
    testCompare "wrongpw1" "#oldpass1" = false ∧
    signinPOST testCompare "123456" 0 none "secret1" =
      ⟨⟨401, .errorMsg "Invalid credentials", false⟩, none⟩ ∧
    signinPOST testCompare "123456" 0 (some oauthUser) "secret1" =
      ⟨⟨401, .errorMsg "Invalid credentials or account created via different method.",
         false⟩, some oauthUser⟩ ∧
    signinPOST testCompare "123456" 0 (some verifiedUser) "wrongpw1" =
      ⟨⟨401, .errorMsg "Invalid credentials", false⟩, some verifiedUser⟩ :=
  ⟨rfl, rfl, by decide,
    (c4_signin_failures_generic_401 testCompare "123456" 0 "secret1"
      oauthUser "x").1,
    (c4_signin_failures_generic_401 testCompare "123456" 0 "secret1"
      oauthUser "x").2.1 rfl,
    (c4_signin_failures_generic_401 testCompare "123456" 0 "wrongpw1"
      verifiedUser "#oldpass1").2.2 rfl (by decide) (by decide)⟩

/-- C9 witness for the amended claim: a concrete deletion removes
exactly the token-identified account and revokes the cookie. -/
theorem c9_delete_account_token_scoped_witness :
    (∃ t, (some "tok" : Option String) = some t ∧
      (fun _ : String => some "u1") t = some verifiedUser.id) ∧
    (deleteAccountDELETE (fun _ => some "u1") (fun _ => true)
        [verifiedUser, oauthUser] (some "tok")).clearsCookie = true :=
  ⟨(c9_delete_account_token_scoped (fun _ => some "u1") (fun _ => true)
      [verifiedUser, oauthUser] (some "tok")).1 verifiedUser (by decide)
      (by decide),
   (c9_delete_account_token_scoped (fun _ => some "u1") (fun _ => true)
      [verifiedUser, oauthUser] (some "tok")).2.1 (Or.inl (by decide))⟩

/-- C10 witness: the pairing invariant after a concrete successful
signup verification. -/
theorem c10_otp_fields_paired_witness :
    otpPaired challengedUser ∧
    otpPaired (signupVerifyUpdate challengedUser 100) :=
  ⟨by decide,
    (c10_otp_fields_paired testCompare testHash "654321" 100 challengedUser
        "secret1" ⟨some "123456", none⟩ "signup" OtpPurpose.signup
        (by decide)).2.2.2 (signupVerifyUpdate challengedUser 100)
      (by decide)⟩

end NextAuth
